import Mathlib

/-!
Verification of the files-manager backend core (session store, auth flow,
user creation, and the two queue consumers) against its specification.

The embedding is shallow: each JavaScript handler or consumer becomes a pure
Lean function over explicit state.  External collaborators (the Redis driver,
the Mongo driver, `sha1`, `uuidv4`, the `image-thumbnail` library, base64
decoding) enter as explicit parameters: the store contents are lists of
records, digest and thumbnail derivation are function arguments, and the
freshly generated token is an input.
-/

set_option autoImplicit false

namespace FilesManager

/-- The ephemeral session store backing `utils/redis.js`: a list of
(key, value, remaining TTL in seconds) entries, most recent first. -/
abbrev RedisStore := List (String × String × Nat)

namespace RedisClient

/-- `RedisClient.get` (src/utils/redis.js): the value stored under `key`,
or `none` when the key is absent. -/
def get (store : RedisStore) (key : String) : Option String :=
  (store.find? (fun e => e.1 == key)).map (fun e => e.2.1)

/-- `RedisClient.del` (src/utils/redis.js): removes every entry stored
under `key`. -/
def del (store : RedisStore) (key : String) : RedisStore :=
  store.filter (fun e => e.1 != key)

/-- `RedisClient.set` (src/utils/redis.js): SETEX — stores `value` under
`key` with time-to-live `duration` seconds, replacing any previous entry. -/
def set (store : RedisStore) (key value : String) (duration : Nat) : RedisStore :=
  (key, value, duration) :: del store key

/-- The `set` method as the caller observes it.  The source fires
`this.client.setex` without awaiting it and without an error handler on the
returned promise, so the method's own promise always resolves to `undefined`;
whether the underlying command succeeded (`cmdOk`) only determines whether
the store was actually updated. -/
def setCall (store : RedisStore) (key value : String) (duration : Nat)
    (cmdOk : Bool) : RedisStore × Except String Unit :=
  (if cmdOk then set store key value duration else store, Except.ok ())

/-- The `del` method as the caller observes it: fire-and-forget like `set`. -/
def delCall (store : RedisStore) (key : String) (cmdOk : Bool) :
    RedisStore × Except String Unit :=
  (if cmdOk then del store key else store, Except.ok ())

end RedisClient

theorem get_del_self (store : RedisStore) (key : String) :
    RedisClient.get (RedisClient.del store key) key = none := by
  induction store with
  | nil => rfl
  | cons e rest ih =>
    by_cases he : e.1 = key
    · simp [RedisClient.get, RedisClient.del, he] at ih ⊢
    · simp [RedisClient.get, RedisClient.del, he] at ih ⊢

theorem del_absent (store : RedisStore) (key : String)
    (h : RedisClient.get store key = none) :
    RedisClient.del store key = store := by
  induction store with
  | nil => rfl
  | cons e rest ih =>
    by_cases he : e.1 = key
    · simp [RedisClient.get, List.find?_cons, he] at h
    · have h' : RedisClient.get rest key = none := by
        simpa [RedisClient.get, List.find?_cons, he] using h
      have hrest : RedisClient.del rest key = rest := ih h'
      calc RedisClient.del (e :: rest) key
          = e :: RedisClient.del rest key := by
            simp [RedisClient.del, List.filter_cons, he]
        _ = e :: rest := by rw [hrest]

/-- Claim C4: revoking a token (deleting key `auth_<t>`) makes an immediately
following resolve of `auth_<t>` return absent, for any store contents and any
remaining TTL; revoking an already-absent token is not an error (the method
resolves normally) and leaves the store unchanged. -/
theorem revoke_then_resolve_absent (store : RedisStore) (t : String) :
    RedisClient.get (RedisClient.del store ("auth_" ++ t)) ("auth_" ++ t) = none ∧
    (RedisClient.get store ("auth_" ++ t) = none →
      RedisClient.del store ("auth_" ++ t) = store) ∧
    ∀ cmdOk : Bool, (RedisClient.delCall store ("auth_" ++ t) cmdOk).2 = Except.ok () := by
  refine ⟨get_del_self store ("auth_" ++ t), del_absent store ("auth_" ++ t), ?_⟩
  intro cmdOk
  rfl

/-- Witness for C4 at a concrete store: the store holds an unrelated key, the
token is absent, and revoking it leaves the store unchanged. -/
theorem revoke_then_resolve_absent_witness :
    RedisClient.get [("other", "u1", 5)] ("auth_" ++ "T") = none ∧
    RedisClient.del [("other", "u1", 5)] ("auth_" ++ "T") = [("other", "u1", 5)] := by
  refine ⟨by decide, ?_⟩
  exact (revoke_then_resolve_absent [("other", "u1", 5)] "T").2.1 (by decide)

/-- Claim C10: `RedisClient.set` and `RedisClient.del` never propagate a store
error to their caller — the promise resolves `ok` whether or not the
underlying SETEX/DEL command succeeded — and a caller that awaits `set`
receives a normal return even when the write has not been applied at all. -/
theorem set_del_never_propagate_error (store : RedisStore)
    (key value : String) (duration : Nat) :
    (∀ cmdOk : Bool,
      (RedisClient.setCall store key value duration cmdOk).2 = Except.ok ()) ∧
    (∀ cmdOk : Bool,
      (RedisClient.delCall store key cmdOk).2 = Except.ok ()) ∧
    (RedisClient.setCall store key value duration false).1 = store := by
  exact ⟨fun _ => rfl, fun _ => rfl, rfl⟩

/-- JavaScript truthiness of an optional string field: an absent field
(`undefined`) and the empty string are both falsy, as tested by the
`if (!x)` guards throughout the source. -/
def strTruthy : Option String → Bool
  | none => false
  | some s => !s.isEmpty

/-- Modelled from the spec: `basicUtils.isValidId` (src/utils/basic.js is not
in the source tree) — syntactic validity of a store identifier, the
24-character hexadecimal shape of a document-store ObjectId. -/
def isValidId (s : String) : Bool :=
  s.length == 24 &&
    s.toList.all (fun c => c.isDigit || ("abcdefABCDEF".toList.contains c))

/-- A user record as written by `UsersController.postNew`: store-assigned
identifier, email, and the SHA1 digest stored in the `password` field. -/
structure UserRecord where
  id : String
  email : String
  password : String
deriving DecidableEq

/-- The part of a file record the worker consumes: store-assigned identifier,
owner user identifier, and the local storage path. -/
structure FileRecord where
  id : String
  userId : String
  localPath : String
deriving DecidableEq

/-- Payload of a job on `fileQueue`, fields optional as in a duck-typed
`job.data`. -/
structure FileJob where
  fileId : Option String
  userId : Option String
deriving DecidableEq

/-- Payload of a job on `userQueue`. -/
structure UserJob where
  userId : Option String
deriving DecidableEq

/-- Outcome of one processor attempt: Bull marks the delivery failed exactly
when the handler throws. -/
inductive JobStatus where
  | completed
  | failed (msg : String)
deriving DecidableEq

/-- Result of a `fileQueue.process` attempt: the job status together with the
thumbnail artifacts written, as (path, bytes) pairs. -/
structure FileJobResult where
  status : JobStatus
  writes : List (String × String)
deriving DecidableEq

/-- Modelled from the spec: `fileUtils.getFile` (src/utils/file.js is not in
the source tree) — a single query returning the first file record matching
every field of the filter, here the filter `\x7b _id, userId \x7d` used by the
worker: both the file identifier and the owner identifier must match. -/
def getFile (files : List FileRecord) (fileId userId : String) :
    Option FileRecord :=
  files.find? (fun f => f.id == fileId && f.userId == userId)

/-- The fixed thumbnail widths of src/worker.js. -/
def thumbnailWidths : List Nat := [500, 250, 100]

/-- The `fileQueue.process` handler of src/worker.js.  `derive path w` is the
outcome of the per-width derivation-and-write unit (the `image-thumbnail`
call followed by `fsPromises.writeFile`, both inside the per-width
`try/catch`): `some bytes` when the artifact is produced, `none` when the
unit fails and the error is only logged.  The handler body never awaits the
per-width callbacks, so the attempt's status is fixed before any of them
settles. -/
def processFileJob (files : List FileRecord) (job : FileJob)
    (derive : String → Nat → Option String) : FileJobResult :=
  if !strTruthy job.userId then ⟨JobStatus.failed "Missing userId", []⟩
  else if !strTruthy job.fileId then ⟨JobStatus.failed "Missing fileId", []⟩
  else
    let fileId := job.fileId.getD ""
    let userId := job.userId.getD ""
    if !isValidId fileId || !isValidId userId then
      ⟨JobStatus.failed "File not found", []⟩
    else
      match getFile files fileId userId with
      | none => ⟨JobStatus.failed "File not found", []⟩
      | some file =>
        ⟨JobStatus.completed,
          thumbnailWidths.filterMap (fun w =>
            (derive file.localPath w).map
              (fun bytes => (file.localPath ++ "_" ++ toString w, bytes)))⟩

/-- Modelled from the spec: `userUtils.getUser` with an `_id` filter
(src/utils/user.js is not in the source tree) — fetch the first user record
whose identifier matches. -/
def getUserById (users : List UserRecord) (userId : String) :
    Option UserRecord :=
  users.find? (fun u => u.id == userId)

/-- The `userQueue.process` handler of src/worker.js: success carries the
welcome line logged for the user. -/
def processUserJob (users : List UserRecord) (job : UserJob) :
    Except String String :=
  if !strTruthy job.userId then Except.error "Missing userId"
  else
    let userId := job.userId.getD ""
    if !isValidId userId then Except.error "User not found"
    else
      match getUserById users userId with
      | none => Except.error "User not found"
      | some u => Except.ok ("Welcome " ++ u.email ++ "!")

theorem isValidId_ne_empty (s : String) (h : isValidId s = true) : s ≠ "" := by
  intro he
  subst he
  simp [isValidId] at h

/-- Claim C2: when both identifiers of a file job are present and
syntactically valid, the worker fetches with a single query filtering on both
the file identifier and the owner identifier; whenever no stored file matches
both fields — the file is absent or owned by a different user — the attempt
fails fatally with "File not found" and no thumbnail work is attempted. -/
theorem fileJob_not_found_fails (files : List FileRecord) (fid uid : String)
    (derive : String → Nat → Option String)
    (hf : isValidId fid = true) (hu : isValidId uid = true)
    (hnone : ∀ f ∈ files, ¬(f.id = fid ∧ f.userId = uid)) :
    processFileJob files ⟨some fid, some uid⟩ derive =
      ⟨JobStatus.failed "File not found", []⟩ := by
  have hfind : getFile files fid uid = none := by
    simp only [getFile, List.find?_eq_none]
    intro f hfm
    simp only [Bool.and_eq_true, beq_iff_eq]
    intro hc
    exact hnone f hfm ⟨hc.1, hc.2⟩
  have hfe : fid ≠ "" := isValidId_ne_empty fid hf
  have hue : uid ≠ "" := isValidId_ne_empty uid hu
  simp [processFileJob, strTruthy, hf, hu, hfind,
    String.isEmpty_iff, hfe, hue]

/-- Witness for C2: both identifiers are valid, and the only stored file has
the job's identifier but a different owner, so the query on both fields finds
nothing. -/
theorem fileJob_not_found_fails_witness :
    processFileJob
      [⟨"0123456789abcdef01234567", "bbbbbbbbbbbbbbbbbbbbbbbb", "/tmp/f"⟩]
      ⟨some "0123456789abcdef01234567", some "aaaaaaaaaaaaaaaaaaaaaaaa"⟩
      (fun _ _ => some "bytes") =
      ⟨JobStatus.failed "File not found", []⟩ := by
  apply fileJob_not_found_fails
  · decide
  · decide
  · decide

/-- Claim C3: thumbnail derivation is best effort per size.  For a validated
job whose record is found, the widths 500, 250, 100 are processed as
independent units; when 500 and 100 succeed and 250 fails, exactly the two
artifacts `<localPath>_500` and `<localPath>_100` are produced and the job
attempt still completes successfully. -/
theorem thumbnails_best_effort (files : List FileRecord) (fid uid : String)
    (file : FileRecord) (derive : String → Nat → Option String) (a b : String)
    (hf : isValidId fid = true) (hu : isValidId uid = true)
    (hfind : getFile files fid uid = some file)
    (h500 : derive file.localPath 500 = some a)
    (h250 : derive file.localPath 250 = none)
    (h100 : derive file.localPath 100 = some b) :
    processFileJob files ⟨some fid, some uid⟩ derive =
      ⟨JobStatus.completed,
        [(file.localPath ++ "_500", a), (file.localPath ++ "_100", b)]⟩ := by
  have hfe : fid ≠ "" := isValidId_ne_empty fid hf
  have hue : uid ≠ "" := isValidId_ne_empty uid hu
  have h5 : toString (500 : Nat) = "500" := rfl
  have h1 : toString (100 : Nat) = "100" := rfl
  simp [processFileJob, strTruthy, hf, hu, hfind, String.isEmpty_iff, hfe,
    hue, thumbnailWidths, h500, h250, h100, h5, h1, String.append_assoc]

/-- Witness for C3 at a concrete store and derivation outcome. -/
theorem thumbnails_best_effort_witness :
    processFileJob
      [⟨"0123456789abcdef01234567", "aaaaaaaaaaaaaaaaaaaaaaaa", "/tmp/f"⟩]
      ⟨some "0123456789abcdef01234567", some "aaaaaaaaaaaaaaaaaaaaaaaa"⟩
      (fun _ w => if w == 250 then none else some "bytes") =
      ⟨JobStatus.completed, [("/tmp/f_500", "bytes"), ("/tmp/f_100", "bytes")]⟩ := by
  have h := thumbnails_best_effort
    [⟨"0123456789abcdef01234567", "aaaaaaaaaaaaaaaaaaaaaaaa", "/tmp/f"⟩]
    "0123456789abcdef01234567" "aaaaaaaaaaaaaaaaaaaaaaaa"
    ⟨"0123456789abcdef01234567", "aaaaaaaaaaaaaaaaaaaaaaaa", "/tmp/f"⟩
    (fun _ w => if w == 250 then none else some "bytes") "bytes" "bytes"
    (by decide) (by decide) rfl rfl rfl rfl
  exact h

/-- Claim C9: the status of a `fileQueue.process` attempt is fixed before any
per-width callback settles — the per-width work is never awaited — so no
outcome of any width's derivation or write can change the attempt's reported
status: the status is the same for every derivation-outcome function. -/
theorem fileJob_status_independent_of_thumbnails (files : List FileRecord)
    (job : FileJob) (derive derive' : String → Nat → Option String) :
    (processFileJob files job derive).status =
      (processFileJob files job derive').status := by
  rcases job with ⟨fileId, userId⟩
  cases hu : strTruthy userId <;> cases hf : strTruthy fileId <;>
    cases hv : (!isValidId (fileId.getD "") || !isValidId (userId.getD "")) <;>
    cases hg : getFile files (fileId.getD "") (userId.getD "") <;>
      simp [processFileJob, hu, hf, hv, hg]

/-- Claim C7: a user job whose `userId` is present (truthy) but not a
syntactically valid store identifier fails fatally with "User not found",
and the store fetch is never attempted — the result is the same for every
possible user store, fetched or not. -/
theorem userJob_invalid_id_fails_without_fetch (uid : String)
    (hpresent : strTruthy (some uid) = true)
    (hinvalid : isValidId uid = false) :
    ∀ users : List UserRecord,
      processUserJob users ⟨some uid⟩ = Except.error "User not found" := by
  intro users
  simp [processUserJob, hpresent, hinvalid]

/-- Witness for C7: a present but malformed identifier fails against a
non-empty user store without consulting it. -/
theorem userJob_invalid_id_fails_without_fetch_witness :
    processUserJob [⟨"aaaaaaaaaaaaaaaaaaaaaaaa", "x@y.z", "D"⟩]
      ⟨some "not-a-valid-id"⟩ = Except.error "User not found" :=
  userJob_invalid_id_fails_without_fetch "not-a-valid-id" (by decide)
    (by decide) [⟨"aaaaaaaaaaaaaaaaaaaaaaaa", "x@y.z", "D"⟩]

/-- An HTTP response: status code and a JSON body modelled as an ordered list
of (field, value) pairs. -/
structure HttpResponse where
  status : Nat
  body : List (String × String)
deriving DecidableEq

/-- Everything a `postNew` call produces: the response sent, the jobs
enqueued on `userQueue`, whether an insert was attempted, and the record the
insert wrote when it succeeded. -/
structure PostNewResult where
  response : HttpResponse
  enqueued : List UserJob
  insertAttempted : Bool
  inserted : Option UserRecord
deriving DecidableEq

/-- The pre-insert existence check of `UsersController.postNew`:
`dbClient.usersCollection.findOne(\x7b email \x7d)`. -/
def findUserByEmail (users : List UserRecord) (email : String) :
    Option UserRecord :=
  users.find? (fun u => u.email == email)

/-- `UsersController.postNew` (src/controllers/UsersController.js).  `email`
and `password` are the optional request-body fields; `sha1Fn` is the external
digest function; `insertOk` is whether `insertOne` succeeds (its failure is
external: store down, write rejected); `newId` is the store-assigned
identifier of a successful insert. -/
def postNew (users : List UserRecord) (email password : Option String)
    (sha1Fn : String → String) (insertOk : Bool) (newId : String) :
    PostNewResult :=
  if !strTruthy email then
    ⟨⟨400, [("error", "Missing email")]⟩, [], false, none⟩
  else if !strTruthy password then
    ⟨⟨400, [("error", "Missing password")]⟩, [], false, none⟩
  else
    let e := email.getD ""
    match findUserByEmail users e with
    | some _ => ⟨⟨400, [("error", "Already exist")]⟩, [], false, none⟩
    | none =>
      if insertOk then
        ⟨⟨201, [("id", newId), ("email", e)]⟩, [⟨some newId⟩], true,
          some ⟨newId, e, sha1Fn (password.getD "")⟩⟩
      else
        ⟨⟨500, [("error", "Error creating user.")]⟩, [⟨none⟩], true, none⟩

/-- JavaScript `delete doc[key]` on a plain object, over the list-of-fields
model of a document. -/
def eraseKey (doc : List (String × String)) (key : String) :
    List (String × String) :=
  doc.filter (fun p => p.1 != key)

/-- The stored user document as `getMe` receives it from the store. -/
def userDoc (u : UserRecord) : List (String × String) :=
  [("_id", u.id), ("email", u.email), ("password", u.password)]

/-- `UsersController.getMe` from the resolved user identifier onward (token
resolution through `userUtils.getUserIdAndKey` is an external step whose
result is the `userId` argument; the user fetch is modelled from the spec,
src/utils/user.js not being in the source tree).  On success the handler
builds `\x7b id: user._id, ...user \x7d` and deletes the `_id` and `password`
fields. -/
def getMe (users : List UserRecord) (userId : String) : HttpResponse :=
  match getUserById users userId with
  | none => ⟨401, [("error", "Unauthorized")]⟩
  | some u =>
    ⟨200, eraseKey (eraseKey (("id", u.id) :: userDoc u) "_id") "password"⟩

/-- Claim C5: email uniqueness is enforced by the pre-insert existence check.
For a request carrying both fields whose email matches an existing record,
`postNew` answers 400 "Already exist" and attempts no insert; an insert is
ever attempted only when the pre-insert lookup found no record with that
email; and a missing email or missing password yields a 400 client-input
failure with no insert. -/
theorem postNew_email_uniqueness (users : List UserRecord)
    (email password : Option String) (sha1Fn : String → String)
    (insertOk : Bool) (newId : String) :
    (strTruthy email = true → strTruthy password = true →
      (∃ u, findUserByEmail users (email.getD "") = some u) →
      (postNew users email password sha1Fn insertOk newId).response =
          ⟨400, [("error", "Already exist")]⟩ ∧
        (postNew users email password sha1Fn insertOk newId).insertAttempted
          = false) ∧
    ((postNew users email password sha1Fn insertOk newId).insertAttempted
        = true →
      findUserByEmail users (email.getD "") = none) ∧
    (strTruthy email = false ∨ strTruthy password = false →
      (postNew users email password sha1Fn insertOk newId).response.status
          = 400 ∧
        (postNew users email password sha1Fn insertOk newId).insertAttempted
          = false) := by
  refine ⟨?_, ?_, ?_⟩
  · intro he hp hex
    obtain ⟨u, hu⟩ := hex
    simp [postNew, he, hp, hu]
  · intro hatt
    by_cases he : strTruthy email = true
    · by_cases hp : strTruthy password = true
      · cases hfind : findUserByEmail users (email.getD "") with
        | none => rfl
        | some u => simp [postNew, he, hp, hfind] at hatt
      · simp [postNew, he, eq_false_of_ne_true hp] at hatt
    · simp [postNew, eq_false_of_ne_true he] at hatt
  · rintro (he | hp)
    · simp [postNew, he]
    · by_cases he' : strTruthy email = true
      · simp [postNew, he', hp]
      · simp [postNew, eq_false_of_ne_true he']

/-- Witness for C5 at a concrete store: the email is already registered, so
the request is rejected with "Already exist" and no insert happens. -/
theorem postNew_email_uniqueness_witness :
    (postNew [⟨"u1", "a@b.c", "D"⟩] (some "a@b.c") (some "pw")
        (fun s => s) true "u2").response =
      ⟨400, [("error", "Already exist")]⟩ ∧
    (postNew [⟨"u1", "a@b.c", "D"⟩] (some "a@b.c") (some "pw")
        (fun s => s) true "u2").insertAttempted = false :=
  (postNew_email_uniqueness [⟨"u1", "a@b.c", "D"⟩] (some "a@b.c")
      (some "pw") (fun s => s) true "u2").1
    (by decide) (by decide) ⟨⟨"u1", "a@b.c", "D"⟩, by decide⟩

/-- Claim C6: when the insert fails, `postNew` enqueues a job with no
`userId` on the user queue and answers 500; the user-queue consumer fatally
rejects any job without a `userId` ("Missing userId"), so that fallback job
always fails at consumption, against every user store. -/
theorem postNew_insert_failure_enqueues_doomed_job (users : List UserRecord)
    (email password : Option String) (sha1Fn : String → String)
    (newId : String)
    (he : strTruthy email = true) (hp : strTruthy password = true)
    (hfind : findUserByEmail users (email.getD "") = none) :
    (postNew users email password sha1Fn false newId).response.status = 500 ∧
    (postNew users email password sha1Fn false newId).enqueued = [⟨none⟩] ∧
    ∀ dbUsers : List UserRecord,
      processUserJob dbUsers ⟨none⟩ = Except.error "Missing userId" := by
  refine ⟨?_, ?_, ?_⟩
  · simp [postNew, he, hp, hfind]
  · simp [postNew, he, hp, hfind]
  · intro dbUsers
    rfl

/-- Witness for C6 at a concrete failed insert. -/
theorem postNew_insert_failure_enqueues_doomed_job_witness :
    (postNew [] (some "a@b.c") (some "pw") (fun s => s) false "u1").response.status = 500 ∧
    (postNew [] (some "a@b.c") (some "pw") (fun s => s) false "u1").enqueued = [⟨none⟩] ∧
    ∀ dbUsers : List UserRecord,
      processUserJob dbUsers ⟨none⟩ = Except.error "Missing userId" :=
  postNew_insert_failure_enqueues_doomed_job [] (some "a@b.c") (some "pw")
    (fun s => s) "u1" (by decide) (by decide) rfl

/-- Claim C8: the password digest is never transmitted back.  A successful
(201) `postNew` response body holds exactly the `id` and `email` fields, and
a successful (200) `getMe` response body has the `password` field removed —
neither body ever contains a `password` field. -/
theorem password_never_in_responses (users : List UserRecord)
    (email password : Option String) (sha1Fn : String → String)
    (insertOk : Bool) (newId userId : String) :
    ((postNew users email password sha1Fn insertOk newId).response.status = 201 →
      (postNew users email password sha1Fn insertOk newId).response.body = [("id", newId), ("email", email.getD "")] ∧
        "password" ∉ ((postNew users email password sha1Fn insertOk newId).response.body.map Prod.fst)) ∧
    ((getMe users userId).status = 200 →
      "password" ∉ (getMe users userId).body.map Prod.fst) := by
  constructor
  · intro h201
    by_cases he : strTruthy email = true
    · by_cases hp : strTruthy password = true
      · cases hfind : findUserByEmail users (email.getD "") with
        | none =>
          cases hok : insertOk with
          | false => simp [postNew, he, hp, hfind, hok] at h201
          | true => simp [postNew, he, hp, hfind, hok]
        | some u => simp [postNew, he, hp, hfind] at h201
      · simp [postNew, he, eq_false_of_ne_true hp] at h201
    · simp [postNew, eq_false_of_ne_true he] at h201
  · intro h200
    cases hfind : getUserById users userId with
    | none => simp [getMe, hfind] at h200
    | some u => simp [getMe, hfind, eraseKey, userDoc]

/-- Witness for C8: a concrete successful sign-up response and a concrete
successful profile lookup, neither carrying a password field. -/
theorem password_never_in_responses_witness :
    ((postNew [] (some "a@b.c") (some "pw") (fun s => s ++ "#") true "u1").response.body = [("id", "u1"), ("email", "a@b.c")] ∧
      "password" ∉ ((postNew [] (some "a@b.c") (some "pw") (fun s => s ++ "#") true "u1").response.body.map Prod.fst)) ∧
    "password" ∉ (getMe [⟨"u1", "a@b.c", "pw#"⟩] "u1").body.map Prod.fst :=
  ⟨(password_never_in_responses [] (some "a@b.c") (some "pw")
      (fun s => s ++ "#") true "u1" "u1").1 (by decide),
    (password_never_in_responses [⟨"u1", "a@b.c", "pw#"⟩] (some "a@b.c")
      (some "pw") (fun s => s ++ "#") true "u1" "u1").2 (by decide)⟩

/-- Character-level split used by `splitCreds`: the characters before the
first colon, and — when a colon occurs — the characters between the first
and second colon. -/
def splitFirstColon : List Char → List Char × Option (List Char)
  | [] => ([], none)
  | c :: rest =>
    if c = ':' then ([], some (rest.takeWhile (fun d => d ≠ ':')))
    else
      let r := splitFirstColon rest
      (c :: r.1, r.2)

/-- JavaScript `decodedCredentials.split(':')` followed by the
destructuring `[email, password] = ...`: the email is the segment before the
first colon (possibly empty), the password the segment between the first and
second colon, `none` (`undefined`) when the string has no colon. -/
def splitCreds (s : String) : String × Option String :=
  let r := splitFirstColon s.data
  (String.mk r.1, r.2.map String.mk)

/-- Result of a `getConnect` call: the HTTP response together with the
session-store write it performed, as (key, value, TTL seconds), `none` when
nothing was written. -/
structure ConnectResult where
  status : Nat
  body : List (String × String)
  sessionWrite : Option (String × String × Nat)
deriving DecidableEq

/-- Modelled from the spec: `userUtils.getUser` with an
`\x7b email, password \x7d` filter (src/utils/user.js is not in the source
tree) — look up a user record matching email and digest exactly. -/
def findUserByCreds (users : List UserRecord) (email digest : String) :
    Option UserRecord :=
  users.find? (fun u => u.email == email && u.password == digest)

/-- `AuthController.getConnect`, from the base64-decoded credential string
onward (header extraction and `Buffer` base64 decoding are external).
`sha1Fn` is the external digest function and `token` the value produced by
the external `uuidv4` call. -/
def getConnect (users : List UserRecord) (sha1Fn : String → String)
    (decodedCredentials token : String) : ConnectResult :=
  let ep := splitCreds decodedCredentials
  match ep.2 with
  | none => ⟨401, [("error", "Unauthorized")], none⟩
  | some p =>
    if ep.1.isEmpty || p.isEmpty then ⟨401, [("error", "Unauthorized")], none⟩
    else
      match findUserByCreds users ep.1 (sha1Fn p) with
      | none => ⟨401, [("error", "Unauthorized")], none⟩
      | some u =>
        ⟨200, [("token", token)], some ("auth_" ++ token, u.id, 24 * 3600)⟩

/-- Counterexample to claim C1 as stated: the credentials ":pw" decode to the
pair ("", "pw"), the store holds a user whose email is "" and whose stored
digest equals the digest of "pw", yet the handler answers 401 and writes no
session key — the `!email` guard fires before the lookup, so the claim's
"every pair with a matching record gets 200" fails for an empty email. -/
theorem getConnect_empty_email_counterexample :
    splitCreds ":pw" = ("", some "pw") ∧
    (fun s => s ++ "#") "pw" = "pw#" ∧
    (⟨"u1", "", "pw#"⟩ : UserRecord) ∈
      ([⟨"u1", "", "pw#"⟩] : List UserRecord) ∧
    getConnect [⟨"u1", "", "pw#"⟩] (fun s => s ++ "#") ":pw" "T" =
      ⟨401, [("error", "Unauthorized")], none⟩ := by
  refine ⟨rfl, rfl, ?_, rfl⟩
  exact List.mem_singleton.mpr rfl

/-- Claim C1 (amended: the decoded email and password must be non-empty, the
code rejecting falsy fields before any lookup).  When the decoded pair
(e, p) has e nonempty and p nonempty and some user record matches email e
and digest sha1(p), the handler answers 200 with the fresh token and writes
key `auth_<token>` mapped to that user's identifier with TTL exactly 86400
seconds; when no record matches the decoded pair, it answers 401 and writes
nothing. -/
theorem getConnect_spec (users : List UserRecord) (sha1Fn : String → String)
    (s token : String) :
    (∀ e p, splitCreds s = (e, some p) → e ≠ "" → p ≠ "" →
      (∃ u ∈ users, u.email = e ∧ u.password = sha1Fn p) →
      ∃ u : UserRecord, u ∈ users ∧ u.email = e ∧ u.password = sha1Fn p ∧
        getConnect users sha1Fn s token =
          ⟨200, [("token", token)], some ("auth_" ++ token, u.id, 86400)⟩) ∧
    (∀ e p, splitCreds s = (e, some p) →
      (∀ u ∈ users, ¬(u.email = e ∧ u.password = sha1Fn p)) →
      (getConnect users sha1Fn s token).status = 401 ∧
        (getConnect users sha1Fn s token).sessionWrite = none) := by
  constructor
  · intro e p hsplit he hp hex
    have hfind : ∃ u, findUserByCreds users e (sha1Fn p) = some u := by
      obtain ⟨u, hmem, hue, hup⟩ := hex
      have : (users.find? (fun u => u.email == e && u.password == sha1Fn p)).isSome := by
        rw [List.find?_isSome]
        exact ⟨u, hmem, by simp [hue, hup]⟩
      exact Option.isSome_iff_exists.mp this
    obtain ⟨u, hu⟩ := hfind
    have hprops := List.find?_some hu
    simp only [Bool.and_eq_true, beq_iff_eq] at hprops
    refine ⟨u, List.mem_of_find?_eq_some hu, hprops.1, hprops.2, ?_⟩
    simp [getConnect, hsplit, String.isEmpty_iff, he, hp, hu]
  · intro e p hsplit hnone
    have hfind : findUserByCreds users e (sha1Fn p) = none := by
      simp only [findUserByCreds, List.find?_eq_none]
      intro u hmem
      simp only [Bool.and_eq_true, beq_iff_eq]
      intro hc
      exact hnone u hmem ⟨hc.1, hc.2⟩
    by_cases he : e = ""
    · simp [getConnect, hsplit, String.isEmpty_iff, he]
    · by_cases hp : p = ""
      · simp [getConnect, hsplit, String.isEmpty_iff, hp]
      · simp [getConnect, hsplit, String.isEmpty_iff, he, hp, hfind]

/-- Witness for C1 (amended) at a concrete store: credentials "a@b.c:pw"
match the stored user, so sign-in answers 200 and writes the 86400-second
session key for that user. -/
theorem getConnect_spec_witness :
    ∃ u : UserRecord,
      u ∈ ([⟨"u9", "a@b.c", "pw#"⟩] : List UserRecord) ∧ u.email = "a@b.c" ∧
      u.password = (fun s => s ++ "#") "pw" ∧
      getConnect [⟨"u9", "a@b.c", "pw#"⟩] (fun s => s ++ "#") "a@b.c:pw" "T" =
        ⟨200, [("token", "T")], some ("auth_" ++ "T", u.id, 86400)⟩ :=
  (getConnect_spec [⟨"u9", "a@b.c", "pw#"⟩] (fun s => s ++ "#") "a@b.c:pw"
      "T").1 "a@b.c" "pw" rfl (by decide) (by decide)
    ⟨⟨"u9", "a@b.c", "pw#"⟩, by decide, rfl, rfl⟩

end FilesManager
